import Mathlib

/-
Verification of the ftp_lib control-connection core (src/lib.rs, src/error.rs,
src/status.rs) against its natural-language specification.

Modelling conventions:
* Physical lines and string payloads are lists of characters; the data the
  library manipulates is ASCII, where Rust byte indices and character indices
  coincide.
* The control stream is a list of physical lines: each successful
  `BufRead::read_line` call yields the next element, and once the list is
  exhausted every further read succeeds with zero bytes (end of stream), which
  is exactly what `read_line` does on a closed TCP connection.
* A Rust function that may abort is modelled with `RustOutcome`, whose
  `panicked` constructor stands for a Rust panic (out-of-range string slicing,
  arithmetic overflow under debug assertions).
* Machine integers are `Nat` with explicit bounds where overflow matters.
-/

set_option maxHeartbeats 1000000

namespace FtpLib

/-- A physical line (or any Rust string payload), as a list of characters. -/
abbrev Line := List Char

/-- `FtpResponse` (src/lib.rs 64-70): status code plus raw message content. -/
structure FtpResponse where
  status : Nat
  content : Line
  deriving DecidableEq, Repr

/-- `FtpError` (src/error.rs 6-41).  `NoPermission` is included because
src/lib.rs matches `ACTION_NOT_TAKEN` to it in five dispatchers even though
the enum in src/error.rs omits it. -/
inductive FtpError where
  | InvalidResponseError (r : FtpResponse)
  | InvalidResponseFormatError
  | ConnectionError
  | InvalidTypeError
  | DatastreamConnectionError
  | SyntaxError (cmd : Line)
  | SyntaxErrorParameters (cmd : Line)
  | CommandUnimplemented (cmd : Line)
  | ServiceUnavailable
  | NotLoggedIn
  | FileUnavailable
  | AccountRequired
  | InvalidFileName
  | BadCommandSequence
  | ServiceNotReady
  | ActionAborted
  | InsufficientStorage
  | NoPermission
  deriving DecidableEq, Repr

/-- Result of a Rust computation that can panic, fail with an `FtpError`, or
succeed. -/
inductive RustOutcome (α : Type) where
  | panicked
  | error (e : FtpError)
  | ok (a : α)
  deriving DecidableEq, Repr

/-- `std::net::SocketAddrV4` restricted to what the library builds: four
address octets and a port. -/
structure SocketAddrV4 where
  oct0 : Nat
  oct1 : Nat
  oct2 : Nat
  oct3 : Nat
  port : Nat
  deriving DecidableEq, Repr

/-- Rust `str::parse::<uN>()` with `bound = 2^N`: an optional leading `'+'`,
then one or more ASCII digits; the value must lie below the bound. -/
def parseUInt (bound : Nat) (s : Line) : Option Nat :=
  let ds := if s.head? = some '+' then s.tail else s
  if ds ≠ [] ∧ ds.all (fun c => c.isDigit) then
    let v := ds.foldl (fun acc c => acc * 10 + (c.toNat - 48)) 0
    if v < bound then some v else none
  else none

/-- Rust `str::starts_with` for string patterns. -/
def startsWith (s pat : Line) : Bool := s.take pat.length == pat

/-- `FtpResponse::from_str` (src/lib.rs 131-151): a line parses as a
single-line reply when it has at least three characters, begins with its own
three-character prefix followed by a space, and that prefix parses as a `u32`.
The stored content is the whole line, untouched. -/
def from_str (s : Line) : Except FtpError FtpResponse :=
  if 3 ≤ s.length then
    let code := s.take 3
    if startsWith s (code ++ [' ']) then
      match parseUInt 4294967296 code with
      | some v => .ok ⟨v, s⟩
      | none => .error .InvalidResponseFormatError
    else .error .InvalidResponseFormatError
  else .error .InvalidResponseFormatError

deriving instance DecidableEq for Except

/-- Rust `str::split(c)` collected into a vector. -/
def splitOnChar (c : Char) : Line → List Line
  | [] => [[]]
  | x :: xs =>
    match splitOnChar c xs with
    | [] => [[]]
    | y :: ys => if x = c then [] :: y :: ys else (x :: y) :: ys

/-- Rust range slice `&s[a..b]`: defined exactly when `a ≤ b ≤ s.len()`,
otherwise the program panics (`none`). -/
def rustSlice (s : Line) (a b : Nat) : Option Line :=
  if a ≤ b ∧ b ≤ s.length then some ((s.drop a).take (b - a)) else none

/-- `FtpResponse::parse_pasv_addr` (src/lib.rs 85-125).  The two port fields
are combined with Rust `u16` arithmetic, which aborts on overflow under debug
assertions; that abort is modelled as `panicked`. -/
def parse_pasv_addr (r : FtpResponse) : RustOutcome SocketAddrV4 :=
  if r.status ≠ 227 then .error .InvalidTypeError
  else
    let a := (r.content.findIdx? (fun c => c == '(')).getD 0
    let b := (r.content.findIdx? (fun c => c == ')')).getD 0
    match rustSlice r.content (a + 1) b with
    | none => .panicked
    | some sec =>
      let fields := splitOnChar ',' sec
      if fields.length ≠ 6 then .error (.InvalidResponseError r)
      else
        match parseUInt 256 (fields.getD 0 []), parseUInt 256 (fields.getD 1 []),
              parseUInt 256 (fields.getD 2 []), parseUInt 256 (fields.getD 3 []) with
        | some o0, some o1, some o2, some o3 =>
          match parseUInt 65536 (fields.getD 4 []), parseUInt 65536 (fields.getD 5 []) with
          | some p0, some p1 =>
            if p0 * 256 + p1 < 65536 then .ok ⟨o0, o1, o2, o3, p0 * 256 + p1⟩
            else .panicked
          | _, _ => .error (.InvalidResponseError r)
        | _, _, _, _ => .error (.InvalidResponseError r)

/-- Exit condition of the multi-line loop in `wait_for_response`
(src/lib.rs 845): the loop stops once the current line has at least five
characters and its first four equal the expected terminator. -/
def exitCond (expected current : Line) : Bool :=
  decide (5 ≤ current.length) && (current.take 4 == expected)

/-- The `while` loop of `wait_for_response` (src/lib.rs 845-851), structurally
recursive on the remaining stream.  Each iteration that fails the exit test
clears the buffer and reads the next line; once the stream is exhausted every
read yields the empty line, which can never satisfy the exit test, so the loop
diverges (`none`). -/
def wfrLoop (expected : Line) : Line → List Line → Option (Line × List Line)
  | current, [] => if exitCond expected current then some (current, []) else none
  | current, l :: ls =>
    if exitCond expected current then some (current, l :: ls) else wfrLoop expected l ls

/-- `FtpConnection::wait_for_response` (src/lib.rs 836-858) on a stream of
physical lines.  Returns `none` when the multi-line loop never terminates, and
`some (outcome, rest)` with the unread remainder of the stream otherwise.
Reading at end of stream yields the empty line, on which `from_str` fails and
the subsequent `&response[0..3]` slice panics; the same slice panics for any
first line shorter than three characters. -/
def wait_for_response (stream : List Line) :
    Option (RustOutcome FtpResponse × List Line) :=
  match stream with
  | [] => some (.panicked, [])
  | l :: rest =>
    match from_str l with
    | .ok v => some (.ok v, rest)
    | .error _ =>
      if l.length < 3 then some (.panicked, rest)
      else
        let expected := l.take 3 ++ [' ']
        match wfrLoop expected l rest with
        | none => none
        | some (finalLine, rest2) =>
          match from_str finalLine with
          | .ok v => some (.ok v, rest2)
          | .error e => some (.error e, rest2)

/-- Step-indexed version of the `wait_for_response` loop: one fuel unit per
iteration, an exhausted stream supplying empty lines exactly as
`read_line` does at end of stream.  `none` means the loop has not finished
within the given number of iterations. -/
def wfrLoopFuel (expected : Line) : Nat → Line → List Line → Option (Line × List Line)
  | 0, _, _ => none
  | n + 1, current, stream =>
    if exitCond expected current then some (current, stream)
    else
      match stream with
      | [] => wfrLoopFuel expected n [] []
      | l :: ls => wfrLoopFuel expected n l ls

/-- Step-indexed `FtpConnection::wait_for_response`: identical to
`wait_for_response` except that the multi-line loop runs on fuel, so
non-termination is witnessed by returning `none` at every fuel. -/
def wait_for_responseFuel (fuel : Nat) (stream : List Line) :
    Option (RustOutcome FtpResponse × List Line) :=
  match stream with
  | [] => some (.panicked, [])
  | l :: rest =>
    match from_str l with
    | .ok v => some (.ok v, rest)
    | .error _ =>
      if l.length < 3 then some (.panicked, rest)
      else
        let expected := l.take 3 ++ [' ']
        match wfrLoopFuel expected fuel l rest with
        | none => none
        | some (finalLine, rest2) =>
          match from_str finalLine with
          | .ok v => some (.ok v, rest2)
          | .error e => some (.error e, rest2)

/-- `FtpConnection::connect` (src/lib.rs 186-205).  `tcpOk` models whether the
underlying `TcpStream::connect` succeeds; on success the greeting reply is
awaited and only the exact status 220 (`SERVICE_READY`) yields a connection. -/
def connect (tcpOk : Bool) (stream : List Line) :
    Option (RustOutcome PUnit × List Line) :=
  if tcpOk then
    match wait_for_response stream with
    | none => none
    | some (.panicked, rest) => some (.panicked, rest)
    | some (.error e, rest) => some (.error e, rest)
    | some (.ok res, rest) =>
      if res.status = 220 then some (.ok ⟨⟩, rest)
      else some (.error (.InvalidResponseError res), rest)
  else some (.error .ConnectionError, stream)

/-- The QUIT command line written by `quit`. -/
def quitCmd : Line := ['Q', 'U', 'I', 'T', '\r', '\n']

/-- `FtpConnection::quit` (src/lib.rs 281-290).  `writeOk` models whether
writing the command succeeds, `shutdownOk` whether `TcpStream::shutdown`
succeeds.  The result triple is (returned value, command lines written,
whether a both-directions shutdown was attempted).  No reply is ever read. -/
def quit (writeOk shutdownOk : Bool) :
    Except FtpError PUnit × List Line × Bool :=
  if writeOk then
    ((if shutdownOk then .ok ⟨⟩ else .error .ConnectionError), [quitCmd], true)
  else (.error .ConnectionError, [], false)

/-- The PWD command line written by `pwd`. -/
def pwdCmd : Line := ['P', 'W', 'D', '\r', '\n']

/-- `FtpConnection::pwd` (src/lib.rs 398-425): writes PWD, awaits one reply,
and on status 257 extracts `split('"')[1]` after checking that the split has
at least two fields.  Result: (outcome or `none` on decoder divergence,
command lines written). -/
def pwd (stream : List Line) : Option (RustOutcome Line) × List Line :=
  match wait_for_response stream with
  | none => (none, [pwdCmd])
  | some (.panicked, _) => (some .panicked, [pwdCmd])
  | some (.error e, _) => (some (.error e), [pwdCmd])
  | some (.ok r, _) =>
    (some (match r.status with
      | 257 =>
        let sq := splitOnChar '"' r.content
        if sq.length < 2 then .error .InvalidResponseFormatError
        else .ok (sq.getD 1 [])
      | 550 => .error .NoPermission
      | 500 => .error (.SyntaxError pwdCmd)
      | 501 => .error (.SyntaxErrorParameters pwdCmd)
      | 502 => .error (.CommandUnimplemented pwdCmd)
      | 421 => .error .ServiceUnavailable
      | 530 => .error .NotLoggedIn
      | _ => .error (.InvalidResponseError r)), [pwdCmd])

/-- The RNFR command line written by `rename` for a source name. -/
def rnfrCmd (src : Line) : Line := ['R', 'N', 'F', 'R', ' '] ++ src ++ ['\r', '\n']

/-- The RNTO command line written by `rename` for a destination name. -/
def rntoCmd (dst : Line) : Line := ['R', 'N', 'T', 'O', ' '] ++ dst ++ ['\r', '\n']

/-- Dispatch of the RNFR reply on the failure arms of `rename`
(src/lib.rs 750-759). -/
def renameFirstFail (cmd : Line) (r : FtpResponse) : FtpError :=
  match r.status with
  | 450 => .FileUnavailable
  | 550 => .FileUnavailable
  | 500 => .SyntaxError cmd
  | 501 => .SyntaxErrorParameters cmd
  | 502 => .CommandUnimplemented cmd
  | 421 => .ServiceUnavailable
  | 530 => .NotLoggedIn
  | _ => .InvalidResponseError r

/-- Dispatch of the RNTO reply on the failure arms of `rename`
(src/lib.rs 737-747). -/
def renameSecondFail (cmd : Line) (r : FtpResponse) : FtpError :=
  match r.status with
  | 532 => .AccountRequired
  | 553 => .InvalidFileName
  | 500 => .SyntaxError cmd
  | 501 => .SyntaxErrorParameters cmd
  | 502 => .CommandUnimplemented cmd
  | 503 => .BadCommandSequence
  | 421 => .ServiceUnavailable
  | 530 => .NotLoggedIn
  | _ => .InvalidResponseError r

/-- `FtpConnection::rename` (src/lib.rs 721-761): writes RNFR, awaits a reply,
and only on status 250 (`FILE_ACTION_COMPLETE`) or 350
(`FILE_NEED_INFORMATION`) writes RNTO and awaits the second reply.  Result:
(outcome or `none` on decoder divergence, command lines written in order). -/
def rename (src dst : Line) (stream : List Line) :
    Option (RustOutcome PUnit) × List Line :=
  let cmd1 := rnfrCmd src
  match wait_for_response stream with
  | none => (none, [cmd1])
  | some (.panicked, _) => (some .panicked, [cmd1])
  | some (.error e, _) => (some (.error e), [cmd1])
  | some (.ok r1, rest) =>
    if r1.status = 250 ∨ r1.status = 350 then
      let cmd2 := rntoCmd dst
      match wait_for_response rest with
      | none => (none, [cmd1, cmd2])
      | some (.panicked, _) => (some .panicked, [cmd1, cmd2])
      | some (.error e, _) => (some (.error e), [cmd1, cmd2])
      | some (.ok r2, _) =>
        if r2.status = 250 then (some (.ok ⟨⟩), [cmd1, cmd2])
        else (some (.error (renameSecondFail cmd2 r2)), [cmd1, cmd2])
    else (some (.error (renameFirstFail cmd1 r1)), [cmd1])

/-
Helper lemmas about the embedded definitions.
-/

theorem digit_bounds (c : Char) (h : c.isDigit = true) : 48 ≤ c.toNat ∧ c.toNat ≤ 57 := by
  simp [Char.isDigit] at h
  exact h

theorem digit_ne_plus (c : Char) (h : c.isDigit = true) : c ≠ '+' := by
  intro he
  subst he
  simp [Char.isDigit] at h

theorem parseUInt_three (c1 c2 c3 : Char) (h1 : c1.isDigit = true) (h2 : c2.isDigit = true)
    (h3 : c3.isDigit = true) :
    parseUInt 4294967296 [c1, c2, c3] =
      some (100 * (c1.toNat - 48) + 10 * (c2.toNat - 48) + (c3.toNat - 48)) := by
  have b1 := digit_bounds c1 h1
  have b2 := digit_bounds c2 h2
  have b3 := digit_bounds c3 h3
  have hne := digit_ne_plus c1 h1
  simp only [parseUInt, List.head?_cons, Option.some.injEq, List.tail_cons]
  rw [if_neg hne]
  rw [if_pos (by simp [h1, h2, h3])]
  simp only [List.foldl]
  rw [if_pos (by omega)]
  congr 1
  omega

theorem from_str_code_space (c1 c2 c3 : Char) (rest : Line)
    (h1 : c1.isDigit = true) (h2 : c2.isDigit = true) (h3 : c3.isDigit = true) :
    from_str (c1 :: c2 :: c3 :: ' ' :: rest) =
      .ok ⟨100 * (c1.toNat - 48) + 10 * (c2.toNat - 48) + (c3.toNat - 48),
           c1 :: c2 :: c3 :: ' ' :: rest⟩ := by
  simp only [from_str]
  rw [if_pos (by simp)]
  have htake : (c1 :: c2 :: c3 :: ' ' :: rest).take 3 = [c1, c2, c3] := by simp
  rw [htake]
  rw [if_pos (by simp [startsWith])]
  rw [parseUInt_three c1 c2 c3 h1 h2 h3]

theorem from_str_no_space (c1 c2 c3 x : Char) (tail : Line) (hx : x ≠ ' ') :
    from_str (c1 :: c2 :: c3 :: x :: tail) = .error .InvalidResponseFormatError := by
  simp only [from_str]
  rw [if_pos (by simp)]
  have htake : (c1 :: c2 :: c3 :: x :: tail).take 3 = [c1, c2, c3] := by simp
  rw [htake]
  rw [if_neg (by simp [startsWith, hx])]

theorem exitCond_false_of_take (expected current : Line) (h : current.take 4 ≠ expected) :
    exitCond expected current = false := by
  simp [exitCond, h]

theorem exitCond_nil (expected : Line) : exitCond expected [] = false := by
  simp [exitCond]

theorem wfrLoop_append (expected close : Line) (hclose : exitCond expected close = true) :
    ∀ (body : List Line) (cur : Line), exitCond expected cur = false →
      (∀ b ∈ body, exitCond expected b = false) →
      wfrLoop expected cur (body ++ [close]) = some (close, []) := by
  intro body
  induction body with
  | nil =>
    intro cur hcur _
    simp only [List.nil_append, wfrLoop, hcur, Bool.false_eq_true, if_false, hclose, if_true]
  | cons b bs ih =>
    intro cur hcur hb
    simp only [List.cons_append, wfrLoop, hcur, Bool.false_eq_true, if_false]
    exact ih b (hb b (by simp)) (fun x hx => hb x (by simp [hx]))

theorem wfrLoopFuel_empty (expected : Line) : ∀ n, wfrLoopFuel expected n [] [] = none := by
  intro n
  induction n with
  | zero => rfl
  | succ n ih => simp only [wfrLoopFuel, exitCond_nil, Bool.false_eq_true, if_false]; exact ih

theorem wfrLoopFuel_single_none (expected l : Line) (h : exitCond expected l = false) :
    ∀ n, wfrLoopFuel expected n l [] = none := by
  intro n
  cases n with
  | zero => rfl
  | succ n =>
    simp only [wfrLoopFuel, h, Bool.false_eq_true, if_false]
    exact wfrLoopFuel_empty expected n

theorem wfrLoopFuel_some (expected : Line) :
    ∀ (n : Nat) (cur : Line) (stream : List Line) (r : Line × List Line),
      wfrLoopFuel expected n cur stream = some r →
      exitCond expected cur = true ∨ ∃ t ∈ stream, exitCond expected t = true := by
  intro n
  induction n with
  | zero => intro cur stream r h; simp [wfrLoopFuel] at h
  | succ n ih =>
    intro cur stream r h
    simp only [wfrLoopFuel] at h
    by_cases hc : exitCond expected cur = true
    · exact Or.inl hc
    · rw [if_neg hc] at h
      match stream, h with
      | [], h => rw [wfrLoopFuel_empty] at h; exact absurd h (by simp)
      | l :: ls, h =>
        rcases ih l ls r h with h' | ⟨t, ht, he⟩
        · exact Or.inr ⟨l, by simp, h'⟩
        · exact Or.inr ⟨t, by simp [ht], he⟩

theorem splitOnChar_not_mem (c : Char) : ∀ (s : Line), c ∉ s → splitOnChar c s = [s] := by
  intro s
  induction s with
  | nil => intro _; rfl
  | cons x xs ih =>
    intro h
    have hx : x ≠ c := fun he => h (by simp [he])
    have hxs : c ∉ xs := fun hm => h (by simp [hm])
    rw [splitOnChar, ih hxs]
    simp [hx]

theorem splitOnChar_first (c : Char) : ∀ (pre rest : Line), c ∉ pre →
    splitOnChar c (pre ++ c :: rest) = pre :: splitOnChar c rest := by
  intro pre
  induction pre with
  | nil =>
    intro rest _
    rw [List.nil_append, splitOnChar]
    cases h : splitOnChar c rest with
    | nil => simp
    | cons y ys => simp
  | cons x xs ih =>
    intro rest h
    have hx : x ≠ c := fun he => h (by simp [he])
    have hxs : c ∉ xs := fun hm => h (by simp [hm])
    rw [List.cons_append, splitOnChar, ih rest hxs]
    simp [hx]

end FtpLib

open FtpLib

/-
Claim theorems.
-/

/-- C8 (amended): for every single physical line of the form
'<3 digits><space><rest>' followed by the line delimiter, the reply decoder
returns Ok with code the numeric value of the three leading digits and text
the entire physical line; the trailing line delimiter is retained in the
stored text, not stripped. -/
theorem C8_single_line_reply (d1 d2 d3 : Char) (rest : Line) (ls : List Line)
    (h1 : d1.isDigit = true) (h2 : d2.isDigit = true) (h3 : d3.isDigit = true) :
    wait_for_response ((d1 :: d2 :: d3 :: ' ' :: (rest ++ ['\r', '\n'])) :: ls) =
      some (.ok ⟨100 * (d1.toNat - 48) + 10 * (d2.toNat - 48) + (d3.toNat - 48),
        d1 :: d2 :: d3 :: ' ' :: (rest ++ ['\r', '\n'])⟩, ls) := by
  simp only [wait_for_response,
    from_str_code_space d1 d2 d3 (rest ++ ['\r', '\n']) h1 h2 h3]

/-- Witness for C8 at the line "220 hi\r\n". -/
theorem C8_single_line_reply_witness :
    wait_for_response (('2' :: '2' :: '0' :: ' ' :: ("hi".toList ++ ['\r', '\n'])) :: []) =
      some (.ok ⟨220, '2' :: '2' :: '0' :: ' ' :: ("hi".toList ++ ['\r', '\n'])⟩, []) :=
  C8_single_line_reply '2' '2' '0' "hi".toList [] (by decide) (by decide) (by decide)

/-- C8 counterexample to the claim as stated: on the wire line "220 hi\r\n"
the decoder stores "220 hi\r\n" itself, not the delimiter-stripped "220 hi". -/
theorem C8_cex :
    wait_for_response ["220 hi\r\n".toList] =
      some (.ok ⟨220, "220 hi\r\n".toList⟩, []) ∧
    wait_for_response ["220 hi\r\n".toList] ≠
      some (.ok ⟨220, "220 hi".toList⟩, []) := by decide

/-- C1 (amended): for every multi-line reply whose opening line is
'<code>-...' (three digits then a hyphen), whose interior lines do not begin
with '<code> ', and whose closing line begins with '<code> ' (a physical line,
hence at least five characters with its delimiter), the decoder returns the
opening line's three-digit code, but its text is the closing physical line
alone: the opening and interior lines are discarded, not concatenated,
because the loop clears the buffer before every read. -/
theorem C1_multiline_final_line_only (c1 c2 c3 : Char) (tail close : Line)
    (body : List Line)
    (h1 : c1.isDigit = true) (h2 : c2.isDigit = true) (h3 : c3.isDigit = true)
    (hbody : ∀ b ∈ body, b.take 4 ≠ [c1, c2, c3, ' '])
    (hclose4 : close.take 4 = [c1, c2, c3, ' '])
    (hclose5 : 5 ≤ close.length) :
    wait_for_response ((c1 :: c2 :: c3 :: '-' :: tail) :: (body ++ [close])) =
      some (.ok ⟨100 * (c1.toNat - 48) + 10 * (c2.toNat - 48) + (c3.toNat - 48),
        close⟩, []) := by
  obtain ⟨d, hd⟩ : ∃ d, close = c1 :: c2 :: c3 :: ' ' :: d := by
    refine ⟨close.drop 4, ?_⟩
    conv_lhs => rw [← List.take_append_drop 4 close]
    rw [hclose4]
    rfl
  subst hd
  have hopen : from_str (c1 :: c2 :: c3 :: '-' :: tail) =
      .error .InvalidResponseFormatError :=
    from_str_no_space c1 c2 c3 '-' tail (by decide)
  simp only [wait_for_response, hopen]
  rw [if_neg (by simp)]
  have htake : (c1 :: c2 :: c3 :: '-' :: tail).take 3 = [c1, c2, c3] := by simp
  rw [htake]
  have hloop := wfrLoop_append ([c1, c2, c3] ++ [' '])
    (c1 :: c2 :: c3 :: ' ' :: d)
    (by
      simp only [exitCond]
      have : (c1 :: c2 :: c3 :: ' ' :: d).take 4 = [c1, c2, c3, ' '] := by simp
      rw [this]
      simp only [List.length_cons] at hclose5 ⊢
      simp
      omega)
    body (c1 :: c2 :: c3 :: '-' :: tail)
    (exitCond_false_of_take _ _ (by simp))
    (fun b hb => exitCond_false_of_take _ _ (by simpa using hbody b hb))
  rw [hloop]
  simp only [from_str_code_space c1 c2 c3 d h1 h2 h3]

/-- Witness for C1: opening "220-Hello\r\n", one interior line "more\r\n",
closing "220 Done\r\n". -/
theorem C1_multiline_final_line_only_witness :
    wait_for_response (('2' :: '2' :: '0' :: '-' :: "Hello\r\n".toList) ::
        (["more\r\n".toList] ++ ["220 Done\r\n".toList])) =
      some (.ok ⟨220, "220 Done\r\n".toList⟩, []) :=
  C1_multiline_final_line_only '2' '2' '0' "Hello\r\n".toList "220 Done\r\n".toList
    ["more\r\n".toList] (by decide) (by decide) (by decide) (by decide) (by decide)
    (by decide)

/-- C1 counterexample to the claim as stated: on the two-line reply
"220-Hello\r\n" / "220 Done\r\n" the decoder's text is the closing line only,
which differs from the in-order concatenation of all physical lines. -/
theorem C1_cex :
    wait_for_response ["220-Hello\r\n".toList, "220 Done\r\n".toList] =
      some (.ok ⟨220, "220 Done\r\n".toList⟩, []) ∧
    "220 Done\r\n".toList ≠ "220-Hello\r\n".toList ++ "220 Done\r\n".toList := by
  decide

/-- C9: the claim says a first line shorter than 4 bytes, or with non-digit
status bytes, makes the decoder return the MalformedReply decode failure and
never panic.  The code instead panics on the slice `&response[0..3]` for a
first line shorter than 3 bytes (here "a\n"), and for the 4-byte non-digit
line "ab\r\n" it enters the multi-line loop and diverges at end of stream
instead of failing. -/
theorem C9_short_or_nondigit_first_line :
    wait_for_response ["a\n".toList] = some (.panicked, []) ∧
    wait_for_response ["ab\r\n".toList] = none := by decide

/-- C10 (amended): if the first line fails single-line parsing, has at least
three characters (avoiding the slice panic), and does not itself satisfy the
loop terminator (its first four characters are not its own three-character
prefix followed by a space, or it is shorter than five characters), then at
end of stream the assembly loop never terminates — at every iteration count
the decoder has returned neither a reply nor an error — and any terminating
run requires some subsequent line whose first four characters equal
'<code> '. -/
theorem C10_multiline_eof_divergence (l : Line)
    (hlen : 3 ≤ l.length)
    (herr : from_str l = .error FtpError.InvalidResponseFormatError)
    (hself : exitCond (l.take 3 ++ [' ']) l = false) :
    (∀ n, wait_for_responseFuel n [l] = none) ∧
    (∀ (n : Nat) (rest : List Line) (res : RustOutcome FtpResponse × List Line),
      wait_for_responseFuel n (l :: rest) = some res →
      ∃ t ∈ rest, exitCond (l.take 3 ++ [' ']) t = true) := by
  constructor
  · intro n
    simp only [wait_for_responseFuel, herr]
    rw [if_neg (by omega)]
    rw [wfrLoopFuel_single_none _ _ hself n]
  · intro n rest res h
    simp only [wait_for_responseFuel, herr] at h
    rw [if_neg (by omega)] at h
    cases hl : wfrLoopFuel (l.take 3 ++ [' ']) n l rest with
    | none => rw [hl] at h; simp at h
    | some p =>
      rcases wfrLoopFuel_some _ n l rest p hl with hc | ht
      · rw [hc] at hself; simp at hself
      · exact ht

/-- Witness for C10: the opening line "220-hi\r\n" at end of stream leaves
the loop running after seven iterations (and any number of iterations). -/
theorem C10_multiline_eof_divergence_witness :
    wait_for_responseFuel 7 ["220-hi\r\n".toList] = none :=
  (C10_multiline_eof_divergence "220-hi\r\n".toList (by decide) (by decide)
    (by decide)).1 7

/-- C10 counterexample to the claim as stated: the first line "abc def\r\n"
fails single-line parsing, yet with the stream at end-of-stream afterwards the
multi-line path terminates at once (the line itself matches the terminator
pattern "abc "), returning a MalformedReply failure rather than looping. -/
theorem C10_cex :
    wait_for_responseFuel 1 ["abc def\r\n".toList] =
      some (.error FtpError.InvalidResponseFormatError, []) ∧
    wait_for_response ["abc def\r\n".toList] =
      some (.error FtpError.InvalidResponseFormatError, []) := by decide

/-- C2: the claim says a 227 reply with a missing '(' or ')' delimiter (or
with ')' before '(') yields MalformedReply and never panics.  The code
panics: with both delimiters missing the slice is `&content[1..0]`, and with
')' before '(' the slice bounds are inverted. -/
theorem C2_missing_delimiter_panics :
    parse_pasv_addr ⟨227, "227 Entering passive mode".toList⟩ = .panicked ∧
    parse_pasv_addr ⟨227, "227 port is ) here ( now".toList⟩ = .panicked := by decide

/-- C3 (amended): `connect` succeeds exactly when the TCP connection succeeds
and the greeting reply carries the service-ready code 220; every other
greeting code — including the ready-in-N-minutes notice 120, for which no
second reply is awaited — and every connection failure aborts construction
with an error, so no connection value is produced. -/
theorem C3_connect_iff_220 (tcpOk : Bool) (stream : List Line) :
    (∃ rest, connect tcpOk stream = some (.ok ⟨⟩, rest)) ↔
      (tcpOk = true ∧ ∃ r rest, wait_for_response stream = some (.ok r, rest) ∧
        r.status = 220) := by
  cases tcpOk with
  | false => simp [connect]
  | true =>
    cases h : wait_for_response stream with
    | none => simp [connect, h]
    | some p =>
      obtain ⟨out, rest⟩ := p
      cases out with
      | panicked => simp [connect, h]
      | error e => simp [connect, h]
      | ok r =>
        by_cases hs : r.status = 220
        · simp [connect, h, hs]
        · simp [connect, h, hs]

/-- C3 counterexample to the claim as stated: a 120 greeting followed by a
220 reply does not make `connect` await the second reply and succeed; it
aborts immediately with the 120 reply as an unexpected-reply error. -/
theorem C3_cex :
    connect true ["120 Service ready in 5 minutes.\r\n".toList, "220 Ready.\r\n".toList] =
      some (.error (.InvalidResponseError
        ⟨120, "120 Service ready in 5 minutes.\r\n".toList⟩), ["220 Ready.\r\n".toList]) ∧
    connect true ["120 Service ready in 5 minutes.\r\n".toList, "220 Ready.\r\n".toList] ≠
      some (.ok ⟨⟩, []) ∧
    connect true ["120 Service ready in 5 minutes.\r\n".toList, "220 Ready.\r\n".toList] ≠
      some (.ok ⟨⟩, ["220 Ready.\r\n".toList]) := by decide

/-- C4 (amended): when writing the QUIT command succeeds, `quit` attempts a
both-directions shutdown without reading any reply, and returns Ok exactly
when that shutdown succeeds; a shutdown failure is reported to the caller as
ConnectionError rather than being swallowed. -/
theorem C4_quit_shutdown (shutdownOk : Bool) :
    quit true shutdownOk =
      ((if shutdownOk then .ok ⟨⟩ else .error .ConnectionError), [quitCmd], true) := by
  cases shutdownOk with
  | false => rfl
  | true => rfl

/-- C4 counterexample to the claim as stated: with the QUIT write succeeding
but the shutdown failing, `quit` returns the ConnectionError failure, not Ok —
the close failure is reported as fatal. -/
theorem C4_cex :
    quit true false = (.error .ConnectionError, [quitCmd], true) ∧
    (quit true false).1 ≠ .ok ⟨⟩ := by decide

/-- C5: when the reply to RNFR carries any status other than 250
(FILE_ACTION_COMPLETE) and 350 (FILE_NEED_INFORMATION), `rename` never writes
the RNTO command — the only command written is the RNFR line — and returns
the failure that the first reply's dispatch table determines. -/
theorem C5_rename_short_circuit (src dst : Line) (stream : List Line)
    (r : FtpResponse) (rest : List Line)
    (h : wait_for_response stream = some (.ok r, rest))
    (h250 : r.status ≠ 250) (h350 : r.status ≠ 350) :
    rename src dst stream =
      (some (.error (renameFirstFail (rnfrCmd src) r)), [rnfrCmd src]) ∧
    rntoCmd dst ∉ (rename src dst stream).2 := by
  have hr : rename src dst stream =
      (some (.error (renameFirstFail (rnfrCmd src) r)), [rnfrCmd src]) := by
    simp only [rename, h]
    rw [if_neg (by simp [h250, h350])]
  refine ⟨hr, ?_⟩
  rw [hr]
  intro hmem
  have : rntoCmd dst = rnfrCmd src := by simpa using hmem
  simp [rntoCmd, rnfrCmd] at this

/-- Witness for C5 at a 550 RNFR reply. -/
theorem C5_rename_short_circuit_witness :
    rename "a".toList "b".toList ["550 Failed\r\n".toList] =
      (some (.error (renameFirstFail (rnfrCmd "a".toList)
        ⟨550, "550 Failed\r\n".toList⟩)), [rnfrCmd "a".toList]) ∧
    rntoCmd "b".toList ∉ (rename "a".toList "b".toList ["550 Failed\r\n".toList]).2 :=
  C5_rename_short_circuit "a".toList "b".toList ["550 Failed\r\n".toList]
    ⟨550, "550 Failed\r\n".toList⟩ [] (by decide) (by decide) (by decide)

/-- C6 (amended): for every 227 reply whose content has its first '(' before
its first ')' and whose text strictly between them splits on ',' into exactly
six fields, the first four parsing as u8 octets and the last two as u16
values whose combination fits in 16 bits, `parse_pasv_addr` returns the
address formed from the four octets in order and port = field5 * 256 +
field6; when the combination does not fit, the u16 arithmetic overflows
instead of producing that port. -/
theorem C6_pasv_address_port (r : FtpResponse) (i j : Nat)
    (f1 f2 f3 f4 f5 f6 : Line) (o0 o1 o2 o3 p0 p1 : Nat)
    (hs : r.status = 227)
    (hi : r.content.findIdx? (fun c => c == '(') = some i)
    (hj : r.content.findIdx? (fun c => c == ')') = some j)
    (hij : i < j)
    (hsplit : splitOnChar ',' ((r.content.drop (i + 1)).take (j - (i + 1))) =
      [f1, f2, f3, f4, f5, f6])
    (hp1 : parseUInt 256 f1 = some o0) (hp2 : parseUInt 256 f2 = some o1)
    (hp3 : parseUInt 256 f3 = some o2) (hp4 : parseUInt 256 f4 = some o3)
    (hp5 : parseUInt 65536 f5 = some p0) (hp6 : parseUInt 65536 f6 = some p1)
    (hport : p0 * 256 + p1 < 65536) :
    parse_pasv_addr r = .ok ⟨o0, o1, o2, o3, p0 * 256 + p1⟩ := by
  have hjlen : j < r.content.length := (List.findIdx?_eq_some_iff_findIdx_eq.mp hj).1
  have hslice : rustSlice r.content (i + 1) j =
      some ((r.content.drop (i + 1)).take (j - (i + 1))) := by
    rw [rustSlice, if_pos ⟨by omega, by omega⟩]
  simp [parse_pasv_addr, hs, hi, hj, hslice, hsplit, hp1, hp2, hp3, hp4, hp5, hp6,
    hport]

/-- Witness for C6 at the documented example reply
"227 Entering passive (127,0,0,1,250,29)". -/
theorem C6_pasv_address_port_witness :
    parse_pasv_addr ⟨227, "227 Entering passive (127,0,0,1,250,29)".toList⟩ =
      .ok ⟨127, 0, 0, 1, 250 * 256 + 29⟩ :=
  C6_pasv_address_port ⟨227, "227 Entering passive (127,0,0,1,250,29)".toList⟩
    21 38 "127".toList "0".toList "0".toList "1".toList "250".toList "29".toList
    127 0 0 1 250 29 (by decide) (by decide) (by decide) (by decide) (by decide)
    (by decide) (by decide) (by decide) (by decide) (by decide) (by decide)
    (by decide)

/-- C6 counterexample to the claim as stated: with port fields 256 and 0 —
both valid u16 values — the claimed port 256 * 256 + 0 = 65536 does not fit
in u16, and the code's u16 arithmetic aborts instead of returning it. -/
theorem C6_cex :
    parse_pasv_addr ⟨227, "227 x (1,2,3,4,256,0)".toList⟩ = .panicked ∧
    parse_pasv_addr ⟨227, "227 x (1,2,3,4,256,0)".toList⟩ ≠
      .ok ⟨1, 2, 3, 4, 65536⟩ := by decide

/-- C7: for every PWD reply with status 257, `pwd` returns exactly the
substring of the reply text lying between the first two '"' characters, and
when the text splits on '"' into fewer than two fields (no '"' at all) it
returns the MalformedReply format error — never a panic and never an empty or
arbitrary string. -/
theorem C7_pwd_quoted_path (stream : List Line) (r : FtpResponse)
    (rest : List Line) (pre mid post : Line)
    (hw : wait_for_response stream = some (.ok r, rest))
    (hs : r.status = 257) :
    (r.content = pre ++ '"' :: (mid ++ '"' :: post) → '"' ∉ pre → '"' ∉ mid →
      pwd stream = (some (.ok mid), [pwdCmd])) ∧
    ('"' ∉ r.content →
      pwd stream = (some (.error .InvalidResponseFormatError), [pwdCmd])) := by
  constructor
  · intro hc hpre hmid
    have hsplit : splitOnChar '"' r.content = pre :: mid :: splitOnChar '"' post := by
      rw [hc, splitOnChar_first _ _ _ hpre, splitOnChar_first _ _ _ hmid]
    simp [pwd, hw, hs, hsplit]
  · intro hnm
    have hsplit : splitOnChar '"' r.content = [r.content] :=
      splitOnChar_not_mem _ _ hnm
    simp [pwd, hw, hs, hsplit]

/-- Witness for C7 at the reply "257 \x22/home/test\x22 is current directory":
the quoted path is extracted. -/
theorem C7_pwd_quoted_path_witness :
    pwd ["257 \"/home/test\" is current directory\r\n".toList] =
      (some (.ok "/home/test".toList), [pwdCmd]) :=
  (C7_pwd_quoted_path ["257 \"/home/test\" is current directory\r\n".toList]
    ⟨257, "257 \"/home/test\" is current directory\r\n".toList⟩ []
    "257 ".toList "/home/test".toList " is current directory\r\n".toList
    (by decide) (by decide)).1 (by decide) (by decide) (by decide)
